import Mathlib

/-!
Verification development for the lcmap-pyccd core: the harmonic basis
builder and lasso fitter (`ccd/models/lasso.py`) and the QA filtering
layer (`ccd/qa.py`), shallowly embedded in Lean.

Quality arrays are `List ℤ` of categorical codes; 2-D observation arrays
are modelled as a band-indexed family of per-observation values
`ℕ → ℕ → ℤ` together with the number of observations `n` (numpy arrays
are rectangular, so a total function plus a length is an exact model of
in-bounds elementwise access).  The QA code values (clear = 0, water = 1,
snow = 3, fill = 255) come from the module docstring of `ccd/qa.py`; the
functions take them as parameters exactly as the Python functions do.
-/

/- ### QA mask layer (`ccd/qa.py`) -/

/-- `mask_snow(quality, snow)`: boolean mask, true where `quality[i] == snow`. -/
def mask_snow (quality : List ℤ) (snow : ℤ) : List Bool :=
  quality.map (fun q => decide (q = snow))

/-- `mask_clear(quality, clear)`: boolean mask, true where `quality[i] == clear`. -/
def mask_clear (quality : List ℤ) (clear : ℤ) : List Bool :=
  quality.map (fun q => decide (q = clear))

/-- `mask_water(quality, water)`: boolean mask, true where `quality[i] == water`. -/
def mask_water (quality : List ℤ) (water : ℤ) : List Bool :=
  quality.map (fun q => decide (q = water))

/-- `mask_fill(quality, fill)`: boolean mask, true where `quality[i] == fill`. -/
def mask_fill (quality : List ℤ) (fill : ℤ) : List Bool :=
  quality.map (fun q => decide (q = fill))

/-- `mask_clear_or_water(quality)`: elementwise OR of the clear and water masks. -/
def mask_clear_or_water (quality : List ℤ) (clear water : ℤ) : List Bool :=
  List.zipWith (· || ·) (mask_clear quality clear) (mask_water quality water)

/-- `count_clear_or_water(quality)`: `np.sum([mask_clear(quality), mask_water(quality)])`,
the total number of `True` entries across the two stacked masks. -/
def count_clear_or_water (quality : List ℤ) (clear water : ℤ) : ℕ :=
  (mask_clear quality clear).count true + (mask_water quality water).count true

/-- `count_fill(quality)`: number of fill observations. -/
def count_fill (quality : List ℤ) (fill : ℤ) : ℕ :=
  (mask_fill quality fill).count true

/-- `count_snow(quality)`: number of snow observations. -/
def count_snow (quality : List ℤ) (snow : ℤ) : ℕ :=
  (mask_snow quality snow).count true

/-- `count_total(quality)`: `np.sum(~mask_fill(quality))`, the number of
non-fill observations. -/
def count_total (quality : List ℤ) (fill : ℤ) : ℕ :=
  ((mask_fill quality fill).map Bool.not).count true

/-- Observable result of a numpy true division of integer counts: a finite
float, `nan` (from `0/0`), or `+inf` (from `c/0` with `c > 0`). -/
inductive NpFloat where
  | finite (r : ℝ)
  | nan
  | posInf

/-- numpy comparison `x >= threshold` on a division result: `nan >= t` is
False, `inf >= t` is True. -/
def npGe : NpFloat → ℝ → Prop
  | NpFloat.finite r, x => r ≥ x
  | NpFloat.nan, _ => False
  | NpFloat.posInf, _ => True

/-- `ratio_clear(quality)`: `count_clear_or_water(quality) / count_total(quality)`,
a numpy true division of two integer counts (`0/0` gives `nan`, `c/0` with
`c > 0` gives `+inf`, otherwise a finite quotient). -/
noncomputable def ratio_clear (quality : List ℤ) (clear water fill : ℤ) : NpFloat :=
  let c := count_clear_or_water quality clear water
  let t := count_total quality fill
  if t = 0 then (if c = 0 then NpFloat.nan else NpFloat.posInf)
  else NpFloat.finite ((c : ℝ) / (t : ℝ))

/-- `ratio_snow(quality)`:
`count_snow(quality) / (clear_count + snowy_count + 0.01)`. -/
noncomputable def ratio_snow (quality : List ℤ) (snow clear water : ℤ) : ℝ :=
  let snowy_count := count_snow quality snow
  let clear_count := count_clear_or_water quality clear water
  (count_snow quality snow : ℝ) / ((clear_count : ℝ) + (snowy_count : ℝ) + 0.01)

/-- `enough_clear(quality, threshold)`: `ratio_clear(quality) >= threshold`. -/
def enough_clear (quality : List ℤ) (clear water fill : ℤ) (threshold : ℝ) : Prop :=
  npGe (ratio_clear quality clear water fill) threshold

/-- `enough_snow(quality, threshold)`: `ratio_snow(quality) >= threshold`. -/
def enough_snow (quality : List ℤ) (snow clear water : ℤ) (threshold : ℝ) : Prop :=
  ratio_snow quality snow clear water ≥ threshold

/-- `filter_saturated(observations)`: boolean mask over observation indices,
true where each of the six spectral bands (rows 1,2,3,4,5,0, in the order
the source checks them) is strictly between 0 and 10000. -/
def filter_saturated (observations : ℕ → ℕ → ℤ) (n : ℕ) : List Bool :=
  (List.range n).map (fun i =>
    decide (0 < observations 1 i ∧ observations 1 i < 10000 ∧
            0 < observations 2 i ∧ observations 2 i < 10000 ∧
            0 < observations 3 i ∧ observations 3 i < 10000 ∧
            0 < observations 4 i ∧ observations 4 i < 10000 ∧
            0 < observations 5 i ∧ observations 5 i < 10000 ∧
            0 < observations 0 i ∧ observations 0 i < 10000))

/-- `filter_thermal(thermal, min_kelvin, max_kelvin)`: the Kelvin bounds are
scaled by 10 to the tenths-scaled units of the data, then the mask is true
where `min_kelvin*10 < thermal[i] < max_kelvin*10` (strict on both sides).
Bounds are decimal constants, modelled in ℚ; data values are integers. -/
def filter_thermal (thermal : ℕ → ℤ) (n : ℕ) (min_kelvin max_kelvin : ℚ) : List Bool :=
  let min10 := min_kelvin * 10
  let max10 := max_kelvin * 10
  (List.range n).map (fun i =>
    decide (min10 < (thermal i : ℚ) ∧ (thermal i : ℚ) < max10))

/-- `clear_index(quality, clear, water)`: `(quality == clear) & (quality == water)`,
exactly as written in the source (the AND of two disjoint equality tests). -/
def clear_index (quality : List ℤ) (clear water : ℤ) : List Bool :=
  quality.map (fun q => decide (q = clear) && decide (q = water))

/-- `standard_filter(observations, quality, thermal_idx)`:
`clear_index(quality) & filter_thermal(observations[thermal_idx]) & filter_saturated(observations)`.
The thermal bounds are `filter_thermal`'s defaults 179.95 and 343.85 Kelvin. -/
def standard_filter (observations : ℕ → ℕ → ℤ) (n : ℕ) (quality : List ℤ)
    (thermal_idx : ℕ) (clear water : ℤ) : List Bool :=
  List.zipWith (· && ·)
    (List.zipWith (· && ·) (clear_index quality clear water)
      (filter_thermal (observations thermal_idx) n (179.95 : ℚ) (343.85 : ℚ)))
    (filter_saturated observations n)

/- ### Harmonic basis builder (`ccd/models/lasso.py`) -/

/-- Modelled from the spec: `defaults.AVG_DAYS_YR`, the default annual
period (`ccd/app.py` is not part of the sources; the spec gives ~365.25). -/
noncomputable def AVG_DAYS_YR : ℝ := 365.25

/-- A design-matrix row: 8 real-valued columns. -/
abbrev CoeffRow : Type := Fin 8 → ℝ

/-- `coefficient_matrix(observation_dates, num_coeffs, avg_days_yr)` without
the cache decorator: one 8-wide row per timestamp.  With `w = 2π/avg_days_yr`,
column 0 is the raw timestamp, columns 1,2 are `cos(w t)`, `sin(w t)`;
columns 3,4 are `cos(2 w t)`, `sin(2 w t)` when `num_coeffs == 6` and stay
zero otherwise; columns 5,6 are `cos(3 w t)`, `sin(3 w t)` when
`num_coeffs == 8` and stay zero otherwise; column 7 is never assigned. -/
noncomputable def coefficient_matrix (observation_dates : List ℤ)
    (num_coeffs : ℕ) (avg_days_yr : ℝ) : List CoeffRow :=
  let w := 2 * Real.pi / avg_days_yr
  observation_dates.map (fun (t : ℤ) => fun (j : Fin 8) =>
    if j = 0 then (t : ℝ)
    else if j = 1 then Real.cos (w * (t : ℝ))
    else if j = 2 then Real.sin (w * (t : ℝ))
    else if j = 3 then (if num_coeffs = 6 then Real.cos (2 * w * (t : ℝ)) else 0)
    else if j = 4 then (if num_coeffs = 6 then Real.sin (2 * w * (t : ℝ)) else 0)
    else if j = 5 then (if num_coeffs = 8 then Real.cos (3 * w * (t : ℝ)) else 0)
    else if j = 6 then (if num_coeffs = 8 then Real.sin (3 * w * (t : ℝ)) else 0)
    else 0)

/-- The process-wide LRU cache (`cachetools.LRUCache(maxsize=1000)`) made
explicit: an ordered list of entries, most recently used first, keyed by
`__coefficient_cache_key(observation_dates) = tuple(observation_dates)`. -/
abbrev Cache : Type := List (List ℤ × List CoeffRow)

/-- Capacity of the module-level cache (`LRUCache(maxsize=1000)`). -/
def CACHE_MAXSIZE : ℕ := 1000

/-- First entry whose key equals `k`, scanning from the MRU end. -/
def cacheLookup : Cache → List ℤ → Option (List CoeffRow)
  | [], _ => none
  | e :: rest, k => if e.1 = k then some e.2 else cacheLookup rest k

/-- Remove the first entry whose key equals `k` (used to move a hit entry
to the MRU position). -/
def cacheEraseKey : Cache → List ℤ → Cache
  | [], _ => []
  | e :: rest, k => if e.1 = k then rest else e :: cacheEraseKey rest k

/-- The `@cached(cache=cache, key=__coefficient_cache_key)` wrapper around
`coefficient_matrix`: the key is the timestamp tuple only, so `num_coeffs`
and `avg_days_yr` take no part in lookup.  A hit returns the stored matrix
and moves its entry to the MRU position; a miss computes the matrix,
inserts it at the MRU position and evicts the LRU entry when the capacity
is exceeded. -/
noncomputable def coefficient_matrix_cached (c : Cache) (observation_dates : List ℤ)
    (num_coeffs : ℕ) (avg_days_yr : ℝ) : List CoeffRow × Cache :=
  match cacheLookup c observation_dates with
  | some m => (m, (observation_dates, m) :: cacheEraseKey c observation_dates)
  | none =>
      let m := coefficient_matrix observation_dates num_coeffs avg_days_yr
      let c1 : Cache := (observation_dates, m) :: c
      (m, if CACHE_MAXSIZE < c1.length then c1.dropLast else c1)

/- ### Lasso fitter (`ccd/models/lasso.py`) -/

/-- The external regression engine's trained model, abstracted to its one
capability: predicting from a design matrix. -/
structure LassoModel where
  predictMatrix : List CoeffRow → List ℝ

/-- An argument passed where sklearn expects an array:
either an actual design matrix, or (as in the source, which passes the
module-level function `coefficient_matrix` itself to `model.predict`) a
Python function object, which `predict` rejects with a `TypeError`. -/
inductive NpInput where
  | matrix (m : List CoeffRow)
  | pyFunction

/-- `model.predict(x)`: defined on array input, raises on a function object. -/
def sklearnPredict (model : LassoModel) : NpInput → Except String (List ℝ)
  | NpInput.matrix m => Except.ok (model.predictMatrix m)
  | NpInput.pyFunction => Except.error "TypeError"

/-- The `FittedModel` result container: fields `model`, `rmse`, `residual`. -/
structure FittedModel where
  model : LassoModel
  rmse : ℝ
  residual : List ℝ

/-- `fitted_model(dates, observations, df)`.  Builds `coef_matrix` through the
cached builder, fits `Lasso(alpha=0.1)` (the external engine, abstracted as
`lassoFit`), then evaluates `model.predict(coefficient_matrix)` — the source
passes the module-level function object, not `coef_matrix`, embedded here as
`NpInput.pyFunction` — and finally would compute rmse and residuals through
the external `calc_rmse`.  Returns the raised error or the bundle, paired
with the cache state after the builder call. -/
noncomputable def fitted_model
    (lassoFit : List CoeffRow → List ℝ → LassoModel)
    (calc_rmse : List ℝ → List ℝ → ℝ × List ℝ)
    (c : Cache) (dates : List ℤ) (observations : List ℝ) (df : ℕ) :
    Except String FittedModel × Cache :=
  let cm := coefficient_matrix_cached c dates df AVG_DAYS_YR
  let coef_matrix := cm.1
  let model := lassoFit coef_matrix observations
  (match sklearnPredict model NpInput.pyFunction with
   | Except.error e => Except.error e
   | Except.ok predictions =>
      let res := calc_rmse observations predictions
      Except.ok { model := model, rmse := res.1, residual := res.2 },
   cm.2)

/- ### Helper lemmas -/

/-- `getD` through a map over `List.range`. -/
lemma getD_map_range {β : Type} (f : ℕ → β) (d : β) {n i : ℕ} (h : i < n) :
    ((List.range n).map f).getD i d = f i := by
  rw [List.getD_eq_getElem?_getD, List.getElem?_map, List.getElem?_range h]
  rfl

/-- `getD` through a map over an arbitrary list. -/
lemma getD_map_list {α β : Type} (l : List α) (f : α → β) (d0 : α) (d : β) :
    ∀ i : ℕ, i < l.length → (l.map f).getD i d = f (l.getD i d0) := by
  induction l with
  | nil => intro i h; simp at h
  | cons a t ih =>
    intro i h
    cases i with
    | zero => rfl
    | succ j =>
      simp only [List.map_cons, List.getD_cons_succ]
      exact ih j (by simpa using h)

/-- An elementwise AND against an all-false mask is all false. -/
lemma zipWith_and_false (l1 l2 : List Bool) (h : ∀ a ∈ l1, a = false) :
    ∀ b ∈ List.zipWith (· && ·) l1 l2, b = false := by
  induction l1 generalizing l2 with
  | nil => simp
  | cons a t ih =>
    cases l2 with
    | nil => simp
    | cons c t2 =>
      intro b hb
      rw [List.zipWith_cons_cons] at hb
      rcases List.mem_cons.mp hb with rfl | hb2
      · rw [h a (List.mem_cons_self _ _)]
        rfl
      · exact ih t2 (fun x hx => h x (List.mem_cons_of_mem _ hx)) b hb2

/-- The defective `clear_index` conjunction is identically false when the
clear and water codes differ. -/
lemma clear_index_all_false (quality : List ℤ) (clear water : ℤ) (h : clear ≠ water) :
    ∀ b ∈ clear_index quality clear water, b = false := by
  intro b hb
  simp only [clear_index, List.mem_map] at hb
  obtain ⟨q, _, rfl⟩ := hb
  by_cases h1 : q = clear
  · subst h1
    by_cases h2 : q = water
    · exact absurd h2 h
    · simp [h2]
  · simp [h1]

/- ### Claim theorems -/

/-- C4: for any quality array, given distinct configured clear and water
codes, `clear_index` returns an all-False mask, and `standard_filter` — the
elementwise conjunction of `clear_index`, `filter_thermal` on the thermal
band and `filter_saturated` — is therefore also all-False. -/
theorem clear_index_standard_filter_all_false_C4 (observations : ℕ → ℕ → ℤ)
    (n : ℕ) (quality : List ℤ) (thermal_idx : ℕ) (clear water : ℤ)
    (h : clear ≠ water) :
    (∀ b ∈ clear_index quality clear water, b = false) ∧
    (∀ b ∈ standard_filter observations n quality thermal_idx clear water,
      b = false) := by
  have hci := clear_index_all_false quality clear water h
  refine ⟨hci, ?_⟩
  unfold standard_filter
  apply zipWith_and_false
  apply zipWith_and_false
  exact hci

/-- Witness for C4 at a concrete input. -/
theorem clear_index_standard_filter_all_false_C4_witness :
    ((0 : ℤ) ≠ 1) ∧
    ((∀ b ∈ clear_index [0, 1, 3] 0 1, b = false) ∧
     (∀ b ∈ standard_filter (fun _ _ => 5) 3 [0, 1, 3] 6 0 1, b = false)) :=
  ⟨by decide,
   clear_index_standard_filter_all_false_C4 (fun _ _ => 5) 3 [0, 1, 3] 6 0 1
     (by decide)⟩

/-- C6: `ratio_snow` is exactly
`count_snow / (count_clear_or_water + count_snow + 0.01)` — total on every
input, the all-fill case included, since the 0.01 epsilon keeps the
denominator strictly positive — and its value lies in `[0, 1)`. -/
theorem ratio_snow_total_and_bounded_C6 (quality : List ℤ) (snow clear water : ℤ) :
    ratio_snow quality snow clear water =
      (count_snow quality snow : ℝ) /
        ((count_clear_or_water quality clear water : ℝ) +
          (count_snow quality snow : ℝ) + 0.01) ∧
    0 ≤ ratio_snow quality snow clear water ∧
    ratio_snow quality snow clear water < 1 := by
  have hs : (0 : ℝ) ≤ (count_snow quality snow : ℝ) := Nat.cast_nonneg _
  have hc : (0 : ℝ) ≤ (count_clear_or_water quality clear water : ℝ) :=
    Nat.cast_nonneg _
  have heps : (0 : ℝ) < 0.01 := by norm_num
  have hd : (0 : ℝ) < (count_clear_or_water quality clear water : ℝ) +
      (count_snow quality snow : ℝ) + 0.01 := by linarith
  refine ⟨rfl, div_nonneg hs hd.le, ?_⟩
  show (count_snow quality snow : ℝ) /
      ((count_clear_or_water quality clear water : ℝ) +
        (count_snow quality snow : ℝ) + 0.01) < 1
  rw [div_lt_one hd]
  linarith

/-- C7: `filter_saturated` is true at an in-range index exactly when all six
spectral bands (rows 0–5) lie strictly inside `(0, 10000)` there; a value
exactly 0 or exactly 10000 in any of those bands forces False. -/
theorem filter_saturated_strict_C7 (observations : ℕ → ℕ → ℤ) (n i : ℕ)
    (h : i < n) :
    ((filter_saturated observations n).getD i false = true ↔
      ∀ b : ℕ, b < 6 → (0 < observations b i ∧ observations b i < 10000)) ∧
    (∀ b : ℕ, b < 6 → (observations b i = 0 ∨ observations b i = 10000) →
      (filter_saturated observations n).getD i false = false) := by
  have hg : (filter_saturated observations n).getD i false =
      decide (0 < observations 1 i ∧ observations 1 i < 10000 ∧
              0 < observations 2 i ∧ observations 2 i < 10000 ∧
              0 < observations 3 i ∧ observations 3 i < 10000 ∧
              0 < observations 4 i ∧ observations 4 i < 10000 ∧
              0 < observations 5 i ∧ observations 5 i < 10000 ∧
              0 < observations 0 i ∧ observations 0 i < 10000) := by
    unfold filter_saturated
    exact getD_map_range _ _ h
  constructor
  · rw [hg]
    simp only [decide_eq_true_eq]
    constructor
    · rintro ⟨a1, a2, a3, a4, a5, a6, a7, a8, a9, a10, a11, a12⟩ b hb
      interval_cases b <;> omega
    · intro hall
      have h0 := hall 0 (by norm_num)
      have h1 := hall 1 (by norm_num)
      have h2 := hall 2 (by norm_num)
      have h3 := hall 3 (by norm_num)
      have h4 := hall 4 (by norm_num)
      have h5 := hall 5 (by norm_num)
      tauto
  · intro b hb hbv
    rw [hg]
    simp only [decide_eq_false_iff_not]
    rintro ⟨a1, a2, a3, a4, a5, a6, a7, a8, a9, a10, a11, a12⟩
    interval_cases b <;> omega

/-- Witness for C7 at a concrete input. -/
theorem filter_saturated_strict_C7_witness :
    0 < 1 ∧
    (((filter_saturated (fun _ _ => 5) 1).getD 0 false = true ↔
        ∀ b : ℕ, b < 6 →
          (0 < (fun _ _ => (5 : ℤ)) b 0 ∧ (fun _ _ => (5 : ℤ)) b 0 < 10000)) ∧
      (∀ b : ℕ, b < 6 →
        ((fun _ _ => (5 : ℤ)) b 0 = 0 ∨ (fun _ _ => (5 : ℤ)) b 0 = 10000) →
        (filter_saturated (fun _ _ => 5) 1).getD 0 false = false)) :=
  ⟨by decide, filter_saturated_strict_C7 (fun _ _ => 5) 1 0 (by decide)⟩

/-- C8: `filter_thermal` is true at an in-range index exactly when the
thermal value lies strictly between `min_kelvin*10` and `max_kelvin*10`; a
value exactly equal to either scaled bound yields False. -/
theorem filter_thermal_strict_bounds_C8 (thermal : ℕ → ℤ) (n i : ℕ)
    (min_kelvin max_kelvin : ℚ) (h : i < n) :
    ((filter_thermal thermal n min_kelvin max_kelvin).getD i false = true ↔
      (min_kelvin * 10 < (thermal i : ℚ) ∧ (thermal i : ℚ) < max_kelvin * 10)) ∧
    (((thermal i : ℚ) = min_kelvin * 10 ∨ (thermal i : ℚ) = max_kelvin * 10) →
      (filter_thermal thermal n min_kelvin max_kelvin).getD i false = false) := by
  have hg : (filter_thermal thermal n min_kelvin max_kelvin).getD i false =
      decide (min_kelvin * 10 < (thermal i : ℚ) ∧
        (thermal i : ℚ) < max_kelvin * 10) := by
    unfold filter_thermal
    exact getD_map_range _ _ h
  constructor
  · rw [hg]
    simp only [decide_eq_true_eq]
  · intro hcase
    rw [hg]
    simp only [decide_eq_false_iff_not]
    rintro ⟨hlt1, hlt2⟩
    rcases hcase with he | he
    · rw [he] at hlt1
      exact lt_irrefl _ hlt1
    · rw [he] at hlt2
      exact lt_irrefl _ hlt2

/-- Witness for C8 at a concrete input. -/
theorem filter_thermal_strict_bounds_C8_witness :
    0 < 1 ∧
    (((filter_thermal (fun _ => 1800) 1 179.95 343.85).getD 0 false = true ↔
        ((179.95 : ℚ) * 10 < (((fun _ => (1800 : ℤ)) 0 : ℤ) : ℚ) ∧
          (((fun _ => (1800 : ℤ)) 0 : ℤ) : ℚ) < (343.85 : ℚ) * 10)) ∧
      ((((((fun _ => (1800 : ℤ)) 0 : ℤ) : ℚ) = (179.95 : ℚ) * 10 ∨
          (((fun _ => (1800 : ℤ)) 0 : ℤ) : ℚ) = (343.85 : ℚ) * 10)) →
        (filter_thermal (fun _ => 1800) 1 179.95 343.85).getD 0 false = false)) :=
  ⟨by decide, filter_thermal_strict_bounds_C8 (fun _ => 1800) 1 0 179.95 343.85
    (by decide)⟩

/-- A mask for a code no element carries counts no `true`. -/
lemma count_mask_eq_zero (quality : List ℤ) (code : ℤ)
    (h : ∀ q ∈ quality, q ≠ code) :
    (quality.map (fun q => decide (q = code))).count true = 0 := by
  rw [List.count_eq_zero]
  intro hmem
  rw [List.mem_map] at hmem
  obtain ⟨q, hq, hb⟩ := hmem
  exact h q hq (of_decide_eq_true hb)

/-- On an all-fill quality array there are no non-fill observations. -/
lemma count_total_all_fill (quality : List ℤ) (fill : ℤ)
    (h : ∀ q ∈ quality, q = fill) :
    count_total quality fill = 0 := by
  unfold count_total mask_fill
  rw [List.count_eq_zero]
  intro hmem
  rw [List.map_map, List.mem_map] at hmem
  obtain ⟨q, hq, hb⟩ := hmem
  simp only [Function.comp] at hb
  rw [h q hq] at hb
  simp at hb

/-- C10: on an all-fill quality array (with the clear and water codes
distinct from the fill code, as configured), `ratio_clear` evaluates the
numpy division `0/0`, i.e. NaN, without raising; consequently
`enough_clear` is False for every threshold, since `nan >= t` is False. -/
theorem ratio_clear_nan_all_fill_C10 (quality : List ℤ) (clear water fill : ℤ)
    (hq : ∀ q ∈ quality, q = fill) (hcf : clear ≠ fill) (hwf : water ≠ fill) :
    ratio_clear quality clear water fill = NpFloat.nan ∧
    ∀ threshold : ℝ, ¬ enough_clear quality clear water fill threshold := by
  have ht : count_total quality fill = 0 := count_total_all_fill quality fill hq
  have hc : count_clear_or_water quality clear water = 0 := by
    unfold count_clear_or_water mask_clear mask_water
    rw [count_mask_eq_zero quality clear
          (fun q hqq hqc => hcf (hqc.symm.trans (hq q hqq))),
        count_mask_eq_zero quality water
          (fun q hqq hqw => hwf (hqw.symm.trans (hq q hqq)))]
  have hr : ratio_clear quality clear water fill = NpFloat.nan := by
    simp [ratio_clear, ht, hc]
  refine ⟨hr, fun threshold hth => ?_⟩
  unfold enough_clear at hth
  rw [hr] at hth
  exact hth

/-- Witness for C10 at a concrete all-fill input. -/
theorem ratio_clear_nan_all_fill_C10_witness :
    (∀ q ∈ ([255, 255] : List ℤ), q = 255) ∧ (0 : ℤ) ≠ 255 ∧ (1 : ℤ) ≠ 255 ∧
    (ratio_clear [255, 255] 0 1 255 = NpFloat.nan ∧
     ∀ threshold : ℝ, ¬ enough_clear [255, 255] 0 1 255 threshold) :=
  ⟨by decide, by decide, by decide,
   ratio_clear_nan_all_fill_C10 [255, 255] 0 1 255 (by decide) (by decide)
     (by decide)⟩

/-- C9: an empty timestamp sequence is handled without raising: the core
builder returns the empty (0, 8) matrix, and the cached builder, started
from any cache with no entry for the empty key, returns a matrix of
length 0. -/
theorem coefficient_matrix_empty_C9 (c : Cache) (nc : ℕ) (ap : ℝ)
    (h : cacheLookup c [] = none) :
    coefficient_matrix [] nc ap = [] ∧
    (coefficient_matrix_cached c [] nc ap).1.length = 0 := by
  refine ⟨rfl, ?_⟩
  unfold coefficient_matrix_cached
  rw [h]
  rfl

/-- Witness for C9 at the empty cache. -/
theorem coefficient_matrix_empty_C9_witness :
    cacheLookup [] [] = none ∧
    (coefficient_matrix [] 4 365.25 = [] ∧
     (coefficient_matrix_cached [] [] 4 365.25).1.length = 0) :=
  ⟨rfl, coefficient_matrix_empty_C9 [] 4 365.25 rfl⟩

/-- C5: for `num_coeffs` in {4, 6, 8} the design matrix has one 8-wide row
per timestamp, column 7 is always zero, and every column beyond those the
requested `num_coeffs` implies is exactly zero. -/
theorem coefficient_matrix_shape_zero_cols_C5 (dates : List ℤ) (nc : ℕ)
    (ap : ℝ) (h : nc = 4 ∨ nc = 6 ∨ nc = 8) :
    (coefficient_matrix dates nc ap).length = dates.length ∧
    ∀ row ∈ coefficient_matrix dates nc ap,
      row 7 = 0 ∧
      (nc = 4 → row 3 = 0 ∧ row 4 = 0 ∧ row 5 = 0 ∧ row 6 = 0 ∧ row 7 = 0) ∧
      (nc = 6 → row 5 = 0 ∧ row 6 = 0 ∧ row 7 = 0) ∧
      (nc = 8 → row 7 = 0) := by
  constructor
  · unfold coefficient_matrix
    dsimp only
    exact List.length_map _ _
  · intro row hrow
    simp only [coefficient_matrix, List.mem_map] at hrow
    obtain ⟨t, ht, rfl⟩ := hrow
    refine ⟨rfl, ?_, ?_, ?_⟩
    · rintro rfl
      exact ⟨rfl, rfl, rfl, rfl, rfl⟩
    · rintro rfl
      exact ⟨rfl, rfl, rfl⟩
    · rintro rfl
      rfl

/-- Witness for C5 at a concrete input. -/
theorem coefficient_matrix_shape_zero_cols_C5_witness :
    (4 = 4 ∨ 4 = 6 ∨ 4 = 8) ∧
    ((coefficient_matrix [0, 1] 4 365.25).length = ([0, 1] : List ℤ).length ∧
     ∀ row ∈ coefficient_matrix [0, 1] 4 365.25,
       row 7 = 0 ∧
       (4 = 4 → row 3 = 0 ∧ row 4 = 0 ∧ row 5 = 0 ∧ row 6 = 0 ∧ row 7 = 0) ∧
       (4 = 6 → row 5 = 0 ∧ row 6 = 0 ∧ row 7 = 0) ∧
       (4 = 8 → row 7 = 0)) :=
  ⟨by decide, coefficient_matrix_shape_zero_cols_C5 [0, 1] 4 365.25 (by decide)⟩

/-- C2 fails on the code: for timestamps [1], `num_coeffs = 8` and
`annual_period = 4`, the claim puts `cos(2ω·1) = cos(π) = -1` in column 3,
but the source populates columns 3,4 only when `num_coeffs == 6`, so the
entry is 0. -/
theorem coefficient_matrix_columns_C2_counterexample :
    ((coefficient_matrix [1] 8 4).getD 0 (fun _ => 0)) 3 ≠
      Real.cos (2 * (2 * Real.pi / 4) * ((1 : ℤ) : ℝ)) := by
  have h1 : ((coefficient_matrix [1] 8 4).getD 0 (fun _ => 0)) 3 = 0 := rfl
  have h2 : (2 : ℝ) * (2 * Real.pi / 4) * ((1 : ℤ) : ℝ) = Real.pi := by
    push_cast
    ring
  rw [h1, h2, Real.cos_pi]
  norm_num

/-- C2 amended: column 0 is the timestamps verbatim and columns 1,2 are
`cos(ωt)`, `sin(ωt)` with `ω = 2π/annual_period`; columns 3,4 equal
`cos(2ωt)`, `sin(2ωt)` exactly when `num_coeffs == 6` (they stay zero
otherwise, in particular for `num_coeffs == 8`); columns 5,6 equal
`cos(3ωt)`, `sin(3ωt)` exactly when `num_coeffs == 8` (zero otherwise);
column 7 is zero. -/
theorem coefficient_matrix_columns_C2_amended (dates : List ℤ) (nc : ℕ)
    (ap : ℝ) (i : ℕ) (h : i < dates.length) :
    ((coefficient_matrix dates nc ap).getD i (fun _ => 0)) 0
        = ((dates.getD i 0 : ℤ) : ℝ) ∧
    ((coefficient_matrix dates nc ap).getD i (fun _ => 0)) 1
        = Real.cos (2 * Real.pi / ap * ((dates.getD i 0 : ℤ) : ℝ)) ∧
    ((coefficient_matrix dates nc ap).getD i (fun _ => 0)) 2
        = Real.sin (2 * Real.pi / ap * ((dates.getD i 0 : ℤ) : ℝ)) ∧
    (nc = 6 →
      ((coefficient_matrix dates nc ap).getD i (fun _ => 0)) 3
          = Real.cos (2 * (2 * Real.pi / ap) * ((dates.getD i 0 : ℤ) : ℝ)) ∧
      ((coefficient_matrix dates nc ap).getD i (fun _ => 0)) 4
          = Real.sin (2 * (2 * Real.pi / ap) * ((dates.getD i 0 : ℤ) : ℝ))) ∧
    (nc ≠ 6 →
      ((coefficient_matrix dates nc ap).getD i (fun _ => 0)) 3 = 0 ∧
      ((coefficient_matrix dates nc ap).getD i (fun _ => 0)) 4 = 0) ∧
    (nc = 8 →
      ((coefficient_matrix dates nc ap).getD i (fun _ => 0)) 5
          = Real.cos (3 * (2 * Real.pi / ap) * ((dates.getD i 0 : ℤ) : ℝ)) ∧
      ((coefficient_matrix dates nc ap).getD i (fun _ => 0)) 6
          = Real.sin (3 * (2 * Real.pi / ap) * ((dates.getD i 0 : ℤ) : ℝ))) ∧
    (nc ≠ 8 →
      ((coefficient_matrix dates nc ap).getD i (fun _ => 0)) 5 = 0 ∧
      ((coefficient_matrix dates nc ap).getD i (fun _ => 0)) 6 = 0) ∧
    ((coefficient_matrix dates nc ap).getD i (fun _ => 0)) 7 = 0 := by
  have hrow : (coefficient_matrix dates nc ap).getD i (fun _ => 0)
      = (fun (j : Fin 8) =>
          if j = 0 then ((dates.getD i 0 : ℤ) : ℝ)
          else if j = 1 then
            Real.cos (2 * Real.pi / ap * ((dates.getD i 0 : ℤ) : ℝ))
          else if j = 2 then
            Real.sin (2 * Real.pi / ap * ((dates.getD i 0 : ℤ) : ℝ))
          else if j = 3 then
            (if nc = 6 then
              Real.cos (2 * (2 * Real.pi / ap) * ((dates.getD i 0 : ℤ) : ℝ))
            else 0)
          else if j = 4 then
            (if nc = 6 then
              Real.sin (2 * (2 * Real.pi / ap) * ((dates.getD i 0 : ℤ) : ℝ))
            else 0)
          else if j = 5 then
            (if nc = 8 then
              Real.cos (3 * (2 * Real.pi / ap) * ((dates.getD i 0 : ℤ) : ℝ))
            else 0)
          else if j = 6 then
            (if nc = 8 then
              Real.sin (3 * (2 * Real.pi / ap) * ((dates.getD i 0 : ℤ) : ℝ))
            else 0)
          else 0) := by
    unfold coefficient_matrix
    exact getD_map_list dates _ 0 _ i h
  rw [hrow]
  refine ⟨rfl, rfl, rfl, ?_, ?_, ?_, ?_, rfl⟩
  · rintro rfl
    exact ⟨rfl, rfl⟩
  · intro h6
    constructor
    · show (if nc = 6 then
          Real.cos (2 * (2 * Real.pi / ap) * ((dates.getD i 0 : ℤ) : ℝ))
        else 0) = 0
      rw [if_neg h6]
    · show (if nc = 6 then
          Real.sin (2 * (2 * Real.pi / ap) * ((dates.getD i 0 : ℤ) : ℝ))
        else 0) = 0
      rw [if_neg h6]
  · rintro rfl
    exact ⟨rfl, rfl⟩
  · intro h8
    constructor
    · show (if nc = 8 then
          Real.cos (3 * (2 * Real.pi / ap) * ((dates.getD i 0 : ℤ) : ℝ))
        else 0) = 0
      rw [if_neg h8]
    · show (if nc = 8 then
          Real.sin (3 * (2 * Real.pi / ap) * ((dates.getD i 0 : ℤ) : ℝ))
        else 0) = 0
      rw [if_neg h8]

/-- Witness for the amended C2 at a concrete input. -/
theorem coefficient_matrix_columns_C2_amended_witness :
    0 < ([3] : List ℤ).length ∧
    (((coefficient_matrix [3] 6 365.25).getD 0 (fun _ => 0)) 0
        = ((([3] : List ℤ).getD 0 0 : ℤ) : ℝ) ∧
    ((coefficient_matrix [3] 6 365.25).getD 0 (fun _ => 0)) 1
        = Real.cos (2 * Real.pi / 365.25 * ((([3] : List ℤ).getD 0 0 : ℤ) : ℝ)) ∧
    ((coefficient_matrix [3] 6 365.25).getD 0 (fun _ => 0)) 2
        = Real.sin (2 * Real.pi / 365.25 * ((([3] : List ℤ).getD 0 0 : ℤ) : ℝ)) ∧
    (6 = 6 →
      ((coefficient_matrix [3] 6 365.25).getD 0 (fun _ => 0)) 3
          = Real.cos (2 * (2 * Real.pi / 365.25) *
              ((([3] : List ℤ).getD 0 0 : ℤ) : ℝ)) ∧
      ((coefficient_matrix [3] 6 365.25).getD 0 (fun _ => 0)) 4
          = Real.sin (2 * (2 * Real.pi / 365.25) *
              ((([3] : List ℤ).getD 0 0 : ℤ) : ℝ))) ∧
    (6 ≠ 6 →
      ((coefficient_matrix [3] 6 365.25).getD 0 (fun _ => 0)) 3 = 0 ∧
      ((coefficient_matrix [3] 6 365.25).getD 0 (fun _ => 0)) 4 = 0) ∧
    (6 = 8 →
      ((coefficient_matrix [3] 6 365.25).getD 0 (fun _ => 0)) 5
          = Real.cos (3 * (2 * Real.pi / 365.25) *
              ((([3] : List ℤ).getD 0 0 : ℤ) : ℝ)) ∧
      ((coefficient_matrix [3] 6 365.25).getD 0 (fun _ => 0)) 6
          = Real.sin (3 * (2 * Real.pi / 365.25) *
              ((([3] : List ℤ).getD 0 0 : ℤ) : ℝ))) ∧
    (6 ≠ 8 →
      ((coefficient_matrix [3] 6 365.25).getD 0 (fun _ => 0)) 5 = 0 ∧
      ((coefficient_matrix [3] 6 365.25).getD 0 (fun _ => 0)) 6 = 0) ∧
    ((coefficient_matrix [3] 6 365.25).getD 0 (fun _ => 0)) 7 = 0) :=
  ⟨by decide, coefficient_matrix_columns_C2_amended [3] 6 365.25 0 (by decide)⟩

/-- `cacheLookup` on the empty cache. -/
lemma cacheLookup_nil (k : List ℤ) : cacheLookup [] k = none := rfl

/-- `cacheLookup` on a cons. -/
lemma cacheLookup_cons (e : List ℤ × List CoeffRow) (rest : Cache)
    (k : List ℤ) :
    cacheLookup (e :: rest) k = if e.1 = k then some e.2 else cacheLookup rest k :=
  rfl

/-- Erasing one key leaves lookups of any other key unchanged. -/
lemma cacheLookup_eraseKey_ne (k k2 : List ℤ) (h : k ≠ k2) (c : Cache) :
    cacheLookup (cacheEraseKey c k2) k = cacheLookup c k := by
  induction c with
  | nil => rfl
  | cons e rest ih =>
    unfold cacheEraseKey
    by_cases he : e.1 = k2
    · rw [if_pos he, cacheLookup_cons,
        if_neg (fun hek : e.1 = k => h (hek.symm.trans he))]
    · rw [if_neg he, cacheLookup_cons, cacheLookup_cons]
      by_cases hek : e.1 = k
      · rw [if_pos hek, if_pos hek]
      · rw [if_neg hek, if_neg hek, ih]

/-- A cache hit returns the stored matrix and moves its entry to the MRU
position, regardless of `num_coeffs` and `avg_days_yr`. -/
lemma cached_hit (c : Cache) (ts : List ℤ) (nc : ℕ) (ap : ℝ)
    (m : List CoeffRow) (h : cacheLookup c ts = some m) :
    coefficient_matrix_cached c ts nc ap = (m, (ts, m) :: cacheEraseKey c ts) := by
  unfold coefficient_matrix_cached
  rw [h]

/-- After any call, the key just requested sits at the MRU head of the
cache, bound to the matrix the call returned. -/
lemma cached_snd_head (c : Cache) (ts : List ℤ) (nc : ℕ) (ap : ℝ) :
    ∃ rest : Cache, (coefficient_matrix_cached c ts nc ap).2
      = (ts, (coefficient_matrix_cached c ts nc ap).1) :: rest := by
  cases hl : cacheLookup c ts with
  | some m =>
    rw [cached_hit c ts nc ap m hl]
    exact ⟨cacheEraseKey c ts, rfl⟩
  | none =>
    unfold coefficient_matrix_cached
    rw [hl]
    dsimp only
    by_cases hb : CACHE_MAXSIZE <
        (((ts, coefficient_matrix ts nc ap) :: c) : Cache).length
    · rw [if_pos hb]
      cases c with
      | nil =>
        exfalso
        simp [CACHE_MAXSIZE] at hb
      | cons e rest2 =>
        exact ⟨_, rfl⟩
    · rw [if_neg hb]
      exact ⟨c, rfl⟩

/-- A call with a different key never disturbs the entry sitting at the
MRU head: the head key still looks up to its stored matrix afterwards. -/
lemma cached_other_key_preserves (rest : Cache) (ts ts2 : List ℤ)
    (m1 : List CoeffRow) (nc : ℕ) (ap : ℝ) (hne : ts2 ≠ ts) :
    cacheLookup (coefficient_matrix_cached ((ts, m1) :: rest) ts2 nc ap).2 ts
      = some m1 := by
  cases hl : cacheLookup ((ts, m1) :: rest) ts2 with
  | some m2 =>
    rw [cached_hit _ _ nc ap m2 hl]
    dsimp only
    rw [cacheLookup_cons, if_neg (show ¬((ts2, m2).1 = ts) from hne),
      cacheLookup_eraseKey_ne ts ts2 (fun hx => hne hx.symm),
      cacheLookup_cons, if_pos rfl]
  | none =>
    unfold coefficient_matrix_cached
    rw [hl]
    dsimp only
    by_cases hb : CACHE_MAXSIZE <
        ((ts2, coefficient_matrix ts2 nc ap) :: (ts, m1) :: rest).length
    · rw [if_pos hb]
      cases rest with
      | nil =>
        exfalso
        simp [CACHE_MAXSIZE] at hb
      | cons e rest2 =>
        show cacheLookup
            ((ts2, coefficient_matrix ts2 nc ap) :: (ts, m1) ::
              (e :: rest2).dropLast) ts = some m1
        rw [cacheLookup_cons,
          if_neg (show ¬((ts2, coefficient_matrix ts2 nc ap).1 = ts) from hne),
          cacheLookup_cons, if_pos rfl]
    · rw [if_neg hb]
      rw [cacheLookup_cons,
        if_neg (show ¬((ts2, coefficient_matrix ts2 nc ap).1 = ts) from hne),
        cacheLookup_cons, if_pos rfl]

/-- C3: the cache key is the ordered timestamp tuple only.  A second call
with the same timestamps returns the matrix computed and cached by the
first call whatever `num_coeffs` and `annual_period` it passes, and an
intervening call with a different timestamp sequence does not alter the
cached result: a later call with the original timestamps still returns
the first call's matrix. -/
theorem coefficient_matrix_cache_key_C3 (c : Cache) (ts ts2 : List ℤ)
    (nc1 nc2 nc3 nc4 : ℕ) (ap1 ap2 ap3 ap4 : ℝ) (hne : ts2 ≠ ts) :
    (coefficient_matrix_cached (coefficient_matrix_cached c ts nc1 ap1).2
        ts nc2 ap2).1
      = (coefficient_matrix_cached c ts nc1 ap1).1 ∧
    (coefficient_matrix_cached
        (coefficient_matrix_cached (coefficient_matrix_cached c ts nc1 ap1).2
          ts2 nc3 ap3).2 ts nc4 ap4).1
      = (coefficient_matrix_cached c ts nc1 ap1).1 := by
  obtain ⟨rest, hsnd⟩ := cached_snd_head c ts nc1 ap1
  have hl1 : cacheLookup (coefficient_matrix_cached c ts nc1 ap1).2 ts
      = some (coefficient_matrix_cached c ts nc1 ap1).1 := by
    rw [hsnd, cacheLookup_cons, if_pos rfl]
  constructor
  · rw [cached_hit _ _ nc2 ap2 _ hl1]
  · have hp : cacheLookup
        (coefficient_matrix_cached (coefficient_matrix_cached c ts nc1 ap1).2
          ts2 nc3 ap3).2 ts
        = some (coefficient_matrix_cached c ts nc1 ap1).1 := by
      rw [hsnd]
      exact cached_other_key_preserves rest ts ts2 _ nc3 ap3 hne
    rw [cached_hit _ _ nc4 ap4 _ hp]

/-- Witness for C3 at concrete inputs (empty starting cache, differing
`num_coeffs` and `annual_period` on each call). -/
theorem coefficient_matrix_cache_key_C3_witness :
    (([3] : List ℤ) ≠ [1, 2]) ∧
    ((coefficient_matrix_cached
        (coefficient_matrix_cached [] [1, 2] 4 365.25).2 [1, 2] 6 1).1
      = (coefficient_matrix_cached [] [1, 2] 4 365.25).1 ∧
    (coefficient_matrix_cached
        (coefficient_matrix_cached
          (coefficient_matrix_cached [] [1, 2] 4 365.25).2 [3] 8 2).2
        [1, 2] 4 3).1
      = (coefficient_matrix_cached [] [1, 2] 4 365.25).1) :=
  ⟨by decide,
   coefficient_matrix_cache_key_C3 [] [1, 2] [3] 4 6 8 4 365.25 1 2 3
     (by decide)⟩

/-- C1 fails on the code: `fitted_model` passes the module-level function
object `coefficient_matrix` to `model.predict` instead of the computed
`coef_matrix`, so the predict call raises a `TypeError` on every input and
no `{model, rmse, residual}` bundle is ever produced. -/
theorem fitted_model_raises_C1 (lassoFit : List CoeffRow → List ℝ → LassoModel)
    (calc_rmse : List ℝ → List ℝ → ℝ × List ℝ) (c : Cache) (dates : List ℤ)
    (observations : List ℝ) (df : ℕ) :
    (fitted_model lassoFit calc_rmse c dates observations df).1
      = Except.error "TypeError" := rfl
